import Mathlib

/-!
Shallow embedding of the bounded frame queue, delivery callback bridge,
pull-mode source loop and seek logic of src/src/gstspotifysrc.c
(gstspotify), together with proofs about the claims on that code.

Modelling conventions:
* glib/GStreamer machine integers (guint64 byte counters, GstClockTime)
  are modelled as Nat.  The byte counter is bounded by max_bytes plus one
  buffer (max_bytes is the constant 1000000; there is no property setter
  for it), so guint64 overflow is unreachable and plain Nat arithmetic is
  exact.  The C guint byte-size computation in the delivery callback is
  modelled with an explicit mod 2^32.
* The mutex/condvar protocol makes every queue operation atomic; each
  operation is therefore a pure state transition.  A blocked consumer is
  modelled by the condWait result (the g_cond_wait branch), which
  increments the stutter counter exactly as the C loop body does.
* gst_buffer_new_and_alloc is modelled as always succeeding (glib
  allocation aborts rather than returning NULL in practice); the NULL
  check branch of the C code is dead under this convention.
* Whether g_cond_broadcast ran is returned as a Bool where a claim is
  about it (gst_spotify_src_end_of_stream).
* The libspotify client seek command result is an oracle Bool parameter
  of gst_spotify_src_do_seek; whether the command was issued at all is
  recorded in the SeekOutcome.
-/

/-- GST_SECOND: one second in GStreamer clock-time units (nanoseconds). -/
def GST_SECOND : Nat := 1000000000

/-- GST_MSECOND: one millisecond in GStreamer clock-time units. -/
def GST_MSECOND : Nat := 1000000

/-- Modulus of the 32-bit C guint type. -/
def GUINT_MOD : Nat := 4294967296

/-- gst_util_uint64_scale: val * num / denom, computed by GStreamer without
intermediate overflow, hence exact Nat arithmetic. -/
def gst_util_uint64_scale (v num denom : Nat) : Nat := v * num / denom

/-- An owned GstBuffer as produced by gst_spotify_src_alloc_and_queue:
payload byte size, GST_BUFFER_TIMESTAMP and GST_BUFFER_DURATION. -/
structure SpotifyBuffer where
  size : Nat
  timestamp : Nat
  duration : Nat
  deriving DecidableEq

/-- The queue-related fields of GstSpotifySrcPrivate.  The queue list head
is the front (g_queue_pop_head side). -/
structure SpotifySrcPrivate where
  queue : List SpotifyBuffer
  max_bytes : Nat
  flushing : Bool
  started : Bool
  is_eos : Bool
  is_first_seek : Bool
  queued_bytes : Nat
  stutter : Nat
  buffer_timestamp : Nat
  deriving DecidableEq

/-- DEFAULT_PROP_MAX_BYTES from the source. -/
def DEFAULT_PROP_MAX_BYTES : Nat := 1000000

/-- State after gst_spotify_src_init: zero-initialised private data with
max_bytes set to DEFAULT_PROP_MAX_BYTES.  (The session, caps, uri and
credential fields are outside the queue model.) -/
def initialPriv : SpotifySrcPrivate :=
  { queue := []
    max_bytes := DEFAULT_PROP_MAX_BYTES
    flushing := false
    started := false
    is_eos := false
    is_first_seek := false
    queued_bytes := 0
    stutter := 0
    buffer_timestamp := 0 }

/-- gst_spotify_src_flush_queued: pop and unref every queued buffer and
reset queued_bytes to zero. -/
def gst_spotify_src_flush_queued (p : SpotifySrcPrivate) : SpotifySrcPrivate :=
  { p with queue := [], queued_bytes := 0 }

/-- The buffer built inside gst_spotify_src_alloc_and_queue: size is the
copied data_size, timestamp is the running buffer_timestamp, duration is
gst_util_uint64_scale (num_frames, GST_SECOND, 44100) with the fixed
44100 rate from the source. -/
def mkDeliveryBuffer (p : SpotifySrcPrivate) (num_frames data_size : Nat) :
    SpotifyBuffer :=
  { size := data_size
    timestamp := p.buffer_timestamp
    duration := gst_util_uint64_scale num_frames GST_SECOND 44100 }

/-- gst_spotify_src_alloc_and_queue (producer-side enqueue).  Refuses while
flushing or at EOS; refuses when max_bytes is nonzero and queued_bytes is
already at or above max_bytes; otherwise allocates, stamps, appends the
buffer at the tail, adds its size to queued_bytes and advances the
running timestamp by the buffer duration. -/
def gst_spotify_src_alloc_and_queue (p : SpotifySrcPrivate)
    (num_frames data_size : Nat) : Bool × SpotifySrcPrivate :=
  if p.flushing then (false, p)
  else if p.is_eos then (false, p)
  else if p.max_bytes ≠ 0 ∧ p.queued_bytes ≥ p.max_bytes then (false, p)
  else
    (true,
      { p with
        queue := p.queue ++ [mkDeliveryBuffer p num_frames data_size]
        queued_bytes := p.queued_bytes + data_size
        buffer_timestamp :=
          p.buffer_timestamp + (mkDeliveryBuffer p num_frames data_size).duration })

/-- Result of one pass of the gst_spotify_src_create loop body. -/
inductive CreateResult where
  /-- GST_FLOW_OK with the popped head buffer. -/
  | flowOk (buf : SpotifyBuffer)
  /-- GST_FLOW_WRONG_STATE: the flushing sentinel. -/
  | flowWrongState
  /-- GST_FLOW_UNEXPECTED: the end-of-stream sentinel. -/
  | flowUnexpected
  /-- The g_cond_wait branch: no data, not flushing, not EOS. -/
  | condWait
  deriving DecidableEq

/-- gst_spotify_src_create (consumer-side dequeue), one atomic pass of its
loop under the mutex: flushing is checked first; a non-empty queue yields
its head and decrements queued_bytes; an empty queue yields the EOS
sentinel when is_eos, else increments stutter and waits. -/
def gst_spotify_src_create (p : SpotifySrcPrivate) :
    CreateResult × SpotifySrcPrivate :=
  if p.flushing then (CreateResult.flowWrongState, p)
  else
    match p.queue with
    | buf :: rest =>
        (CreateResult.flowOk buf,
          { p with queue := rest, queued_bytes := p.queued_bytes - buf.size })
    | [] =>
        if p.is_eos then (CreateResult.flowUnexpected, p)
        else (CreateResult.condWait, { p with stutter := p.stutter + 1 })

/-- gst_spotify_src_unlock: set flushing and broadcast. -/
def gst_spotify_src_unlock (p : SpotifySrcPrivate) : SpotifySrcPrivate :=
  { p with flushing := true }

/-- gst_spotify_src_unlock_stop: clear flushing and broadcast. -/
def gst_spotify_src_unlock_stop (p : SpotifySrcPrivate) : SpotifySrcPrivate :=
  { p with flushing := false }

/-- gst_spotify_src_end_of_stream.  The second component records whether
g_cond_broadcast ran: when flushing the call is refused and nothing
happens, otherwise is_eos is set and the condvar is broadcast. -/
def gst_spotify_src_end_of_stream (p : SpotifySrcPrivate) :
    SpotifySrcPrivate × Bool :=
  if p.flushing then (p, false)
  else ({ p with is_eos := true }, true)

/-- spotify_end_of_track_cb forwards to gst_spotify_src_end_of_stream on
the global element. -/
def spotify_end_of_track_cb (p : SpotifySrcPrivate) :
    SpotifySrcPrivate × Bool :=
  gst_spotify_src_end_of_stream p

/-- spotify_music_delivery_cb: byte size is num_frames * sizeof(int16_t) *
channels truncated to guint; a zero-frame call reports zero consumed
without touching the queue; otherwise the enqueue is attempted and the
callback reports num_frames on success, zero on refusal.  The delivered
sample_rate is only logged by the C code, so it does not appear in the
state transition. -/
def spotify_music_delivery_cb (p : SpotifySrcPrivate)
    (channels _sample_rate num_frames : Nat) : Nat × SpotifySrcPrivate :=
  let bufsize := num_frames * 2 * channels % GUINT_MOD
  if num_frames = 0 then (0, p)
  else
    let r := gst_spotify_src_alloc_and_queue p num_frames bufsize
    if r.fst then (num_frames, r.snd) else (0, r.snd)

/-- Outcome of gst_spotify_src_do_seek: the boolean return value, whether
the spotify_seek client command was issued, and the private state after
the call. -/
structure SeekOutcome where
  res : Bool
  issued_client_seek : Bool
  priv : SpotifySrcPrivate
  deriving DecidableEq

/-- The non-shortcut path of gst_spotify_src_do_seek: issue the client
seek; on success flush the queue, clear is_eos and set the running
timestamp to the desired position; on failure change nothing. -/
def gst_spotify_src_do_seek_normal (p : SpotifySrcPrivate)
    (desired_position : Nat) (client_seek_ok : Bool) : SeekOutcome :=
  if client_seek_ok then
    { res := true
      issued_client_seek := true
      priv := { gst_spotify_src_flush_queued p with
                  is_eos := false, buffer_timestamp := desired_position } }
  else
    { res := false, issued_client_seek := true, priv := p }

/-- gst_spotify_src_do_seek: the first seek to position zero after start is
answered TRUE without issuing any client command or touching anything but
the is_first_seek flag (the decode-error workaround in the source); every
other call takes the normal path. -/
def gst_spotify_src_do_seek (p : SpotifySrcPrivate)
    (desired_position : Nat) (client_seek_ok : Bool) : SeekOutcome :=
  if p.is_first_seek = true ∧ desired_position = 0 then
    { res := true
      issued_client_seek := false
      priv := { p with is_first_seek := false } }
  else gst_spotify_src_do_seek_normal p desired_position client_seek_ok

/-- The queue-related effect of gst_spotify_src_start: set is_first_seek,
clear flushing, zero stutter and the running timestamp; the session_ok
oracle stands for spotify_create/login/play succeeding, in which case
started is set.  (The source does not touch is_eos here.) -/
def gst_spotify_src_start (p : SpotifySrcPrivate) (session_ok : Bool) :
    Bool × SpotifySrcPrivate :=
  let p1 := { p with
    is_first_seek := true, flushing := false, stutter := 0, buffer_timestamp := 0 }
  if session_ok then (true, { p1 with started := true }) else (false, p1)

/-- The queue-related effect of gst_spotify_src_stop: clear is_eos, set
flushing, flush the queue, clear started (the session commands are
external). -/
def gst_spotify_src_stop (p : SpotifySrcPrivate) : SpotifySrcPrivate :=
  { gst_spotify_src_flush_queued { p with is_eos := false, flushing := true } with
      started := false }

/-- One operation on the shared queue, as visible at its lock. -/
inductive QueueOp where
  /-- A producer call of gst_spotify_src_alloc_and_queue. -/
  | enqueue (num_frames data_size : Nat)
  /-- A consumer pass of gst_spotify_src_create. -/
  | dequeue
  /-- A gst_spotify_src_flush_queued call (stop or successful seek). -/
  | flush
  deriving DecidableEq

/-- A run of the producer/consumer system: the buffers admitted so far, the
buffers handed to the consumer so far, and the private state. -/
structure TraceState where
  admitted : List SpotifyBuffer
  delivered : List SpotifyBuffer
  priv : SpotifySrcPrivate
  deriving DecidableEq

/-- Apply one queue operation, recording admitted and delivered buffers. -/
def traceStep (s : TraceState) (op : QueueOp) : TraceState :=
  match op with
  | QueueOp.enqueue n sz =>
      let r := gst_spotify_src_alloc_and_queue s.priv n sz
      if r.fst then
        { admitted := s.admitted ++ [mkDeliveryBuffer s.priv n sz]
          delivered := s.delivered
          priv := r.snd }
      else { s with priv := r.snd }
  | QueueOp.dequeue =>
      let r := gst_spotify_src_create s.priv
      match r.fst with
      | CreateResult.flowOk buf =>
          { s with delivered := s.delivered ++ [buf], priv := r.snd }
      | _ => { s with priv := r.snd }
  | QueueOp.flush => { s with priv := gst_spotify_src_flush_queued s.priv }

/-- Run a list of queue operations from the freshly initialised element. -/
def runTrace (ops : List QueueOp) : TraceState :=
  ops.foldl traceStep { admitted := [], delivered := [], priv := initialPriv }

/-- Case split for the enqueue: either it refuses and the state is exactly
unchanged, or it succeeds with the stamped buffer appended, queued_bytes
increased by data_size and the timestamp advanced by the duration. -/
theorem alloc_and_queue_cases (p : SpotifySrcPrivate) (n sz : Nat) :
    gst_spotify_src_alloc_and_queue p n sz = (false, p) ∨
    gst_spotify_src_alloc_and_queue p n sz =
      (true,
        { p with
          queue := p.queue ++ [mkDeliveryBuffer p n sz]
          queued_bytes := p.queued_bytes + sz
          buffer_timestamp :=
            p.buffer_timestamp + (mkDeliveryBuffer p n sz).duration }) := by
  unfold gst_spotify_src_alloc_and_queue
  split
  · exact Or.inl rfl
  split
  · exact Or.inl rfl
  split
  · exact Or.inl rfl
  · exact Or.inr rfl

/-- The create pass returns the flushing sentinel unchanged while flushing. -/
theorem create_of_flushing (p : SpotifySrcPrivate) (h : p.flushing = true) :
    gst_spotify_src_create p = (CreateResult.flowWrongState, p) := by
  unfold gst_spotify_src_create
  simp [h]

/-- The create pass pops the head buffer when not flushing and data is
queued. -/
theorem create_of_queued (p : SpotifySrcPrivate) (b : SpotifyBuffer)
    (rest : List SpotifyBuffer) (hf : p.flushing = false)
    (hq : p.queue = b :: rest) :
    gst_spotify_src_create p =
      (CreateResult.flowOk b,
        { p with queue := rest, queued_bytes := p.queued_bytes - b.size }) := by
  unfold gst_spotify_src_create
  rw [hq]
  simp [hf]

/-- The create pass on an empty queue: EOS sentinel when is_eos, otherwise
one stutter increment and a condvar wait. -/
theorem create_of_empty (p : SpotifySrcPrivate) (hf : p.flushing = false)
    (hq : p.queue = []) :
    gst_spotify_src_create p =
      (if p.is_eos then (CreateResult.flowUnexpected, p)
       else (CreateResult.condWait, { p with stutter := p.stutter + 1 })) := by
  unfold gst_spotify_src_create
  rw [hq]
  simp [hf]

/-- The byte-accounting invariant of the frame queue: the queued_bytes
counter equals the sum of the sizes of the currently queued buffers. -/
def bytesAccounted (p : SpotifySrcPrivate) : Prop :=
  p.queued_bytes = (p.queue.map SpotifyBuffer.size).sum

/-- Every queue operation preserves the byte-accounting invariant. -/
theorem bytesAccounted_step (s : TraceState) (op : QueueOp)
    (h : bytesAccounted s.priv) : bytesAccounted (traceStep s op).priv := by
  cases op with
  | enqueue n sz =>
      rcases alloc_and_queue_cases s.priv n sz with hc | hc
      · simpa [traceStep, hc] using h
      · unfold bytesAccounted at h ⊢
        simp [traceStep, hc, mkDeliveryBuffer]
        omega
  | dequeue =>
      by_cases hf : s.priv.flushing = true
      · simpa [traceStep, create_of_flushing s.priv hf] using h
      · rw [Bool.not_eq_true] at hf
        cases hq : s.priv.queue with
        | nil =>
            rw [bytesAccounted] at h
            by_cases he : s.priv.is_eos = true
            · simpa [traceStep, create_of_empty s.priv hf hq, he, bytesAccounted]
                using h
            · rw [Bool.not_eq_true] at he
              simpa [traceStep, create_of_empty s.priv hf hq, he, bytesAccounted]
                using h
        | cons b rest =>
            rw [bytesAccounted, hq] at h
            simp only [List.map_cons, List.sum_cons] at h
            simp [traceStep, create_of_queued s.priv b rest hf hq, bytesAccounted]
            omega
  | flush =>
      simp [traceStep, gst_spotify_src_flush_queued, bytesAccounted]

/-- The byte-accounting invariant holds along every run. -/
theorem bytesAccounted_run (ops : List QueueOp) (s : TraceState)
    (h : bytesAccounted s.priv) :
    bytesAccounted (ops.foldl traceStep s).priv := by
  induction ops generalizing s with
  | nil => exact h
  | cons op rest ih => exact ih _ (bytesAccounted_step s op h)

/-- C2: for every sequence of enqueue (gst_spotify_src_alloc_and_queue),
dequeue (gst_spotify_src_create) and flush (gst_spotify_src_flush_queued)
operations from the initial state, queued_bytes equals the exact sum of
the sizes of the buffers currently in the queue. -/
theorem C2_queued_bytes_invariant (ops : List QueueOp) :
    (runTrace ops).priv.queued_bytes
      = ((runTrace ops).priv.queue.map SpotifyBuffer.size).sum :=
  bytesAccounted_run ops _ rfl

/-- C1 (counterexample): with max_bytes = 500, successive enqueues of sizes
100, 200 and 300 are all admitted: the third enqueue, which the claim
says must be rejected because 300 + 300 > 500, returns true and leaves
queued_bytes at 600, above max_bytes. -/
theorem C1_counterexample :
    (gst_spotify_src_alloc_and_queue
      (gst_spotify_src_alloc_and_queue
        (gst_spotify_src_alloc_and_queue
          { initialPriv with max_bytes := 500 } 1 100).snd 1 200).snd 1 300).fst
      = true ∧
    (gst_spotify_src_alloc_and_queue
      (gst_spotify_src_alloc_and_queue
        (gst_spotify_src_alloc_and_queue
          { initialPriv with max_bytes := 500 } 1 100).snd 1 200).snd 1 300).snd.queued_bytes
      = 600 ∧
    300 + 300 > 500 := by decide

/-- C1 (amended): the enqueue fails, with the state exactly unchanged,
precisely when queued_bytes has already reached max_bytes (max_bytes
nonzero) at the time of the call; when queued_bytes is still below
max_bytes (and the queue is neither flushing nor at EOS) the buffer is
admitted and queued_bytes grows by its full size, so queued_bytes may
exceed max_bytes by up to one buffer. -/
theorem C1_amended (p : SpotifySrcPrivate) (n sz : Nat) :
    (p.max_bytes ≠ 0 → p.queued_bytes ≥ p.max_bytes →
      gst_spotify_src_alloc_and_queue p n sz = (false, p)) ∧
    (p.flushing = false → p.is_eos = false → p.queued_bytes < p.max_bytes →
      gst_spotify_src_alloc_and_queue p n sz =
        (true,
          { p with
            queue := p.queue ++ [mkDeliveryBuffer p n sz]
            queued_bytes := p.queued_bytes + sz
            buffer_timestamp :=
              p.buffer_timestamp + (mkDeliveryBuffer p n sz).duration })) := by
  constructor
  · intro h0 h1
    unfold gst_spotify_src_alloc_and_queue
    split
    · rfl
    split
    · rfl
    split
    · rfl
    · rename_i hmax
      exact absurd ⟨h0, h1⟩ hmax
  · intro hf he hlt
    unfold gst_spotify_src_alloc_and_queue
    rw [if_neg (by simp [hf]), if_neg (by simp [he]), if_neg (by omega)]

/-- Witness for C1 (amended): at queued_bytes already equal to max_bytes,
the enqueue of a 4-byte buffer is refused with the state unchanged. -/
theorem C1_amended_witness :
    ({ initialPriv with queued_bytes := 1000000 } : SpotifySrcPrivate).max_bytes ≠ 0 ∧
    ({ initialPriv with queued_bytes := 1000000 } : SpotifySrcPrivate).queued_bytes
      ≥ ({ initialPriv with queued_bytes := 1000000 } : SpotifySrcPrivate).max_bytes ∧
    gst_spotify_src_alloc_and_queue { initialPriv with queued_bytes := 1000000 } 1 4
      = (false, { initialPriv with queued_bytes := 1000000 }) :=
  ⟨by decide, by decide,
    (C1_amended { initialPriv with queued_bytes := 1000000 } 1 4).1
      (by decide) (by decide)⟩

/-- Boolean check that a buffer list is stamped as an unbroken chain
starting at time t: each buffer carries the running time and advances it
by its duration. -/
def chainB : Nat → List SpotifyBuffer → Bool
  | _, [] => true
  | t, b :: r => (b.timestamp == t) && chainB (t + b.duration) r

/-- The running time at the end of a chain starting at t. -/
def chainEnd : Nat → List SpotifyBuffer → Nat
  | t, [] => t
  | t, b :: r => chainEnd (t + b.duration) r

/-- Boolean check that each buffer in a list is stamped exactly at the
previous buffer timestamp plus the previous buffer duration. -/
def consecStamped : List SpotifyBuffer → Bool
  | b1 :: b2 :: r => (b2.timestamp == b1.timestamp + b1.duration) && consecStamped (b2 :: r)
  | _ => true

theorem chainB_append (t : Nat) (l : List SpotifyBuffer) (b : SpotifyBuffer) :
    chainB t (l ++ [b]) = (chainB t l && (b.timestamp == chainEnd t l)) := by
  induction l generalizing t with
  | nil => simp [chainB, chainEnd]
  | cons a r ih => simp [chainB, chainEnd, ih, Bool.and_assoc]

theorem chainEnd_append (t : Nat) (l : List SpotifyBuffer) (b : SpotifyBuffer) :
    chainEnd t (l ++ [b]) = chainEnd t l + b.duration := by
  induction l generalizing t with
  | nil => simp [chainEnd]
  | cons a r ih => simp [chainEnd, ih]

theorem chainB_of_append_left (t : Nat) (l1 l2 : List SpotifyBuffer)
    (h : chainB t (l1 ++ l2) = true) : chainB t l1 = true := by
  induction l1 generalizing t with
  | nil => rfl
  | cons a r ih =>
      simp only [List.cons_append, chainB, Bool.and_eq_true] at h ⊢
      exact ⟨h.1, ih _ h.2⟩

theorem consecStamped_of_chainB (l : List SpotifyBuffer) :
    ∀ t, chainB t l = true → consecStamped l = true := by
  induction l with
  | nil => intro t _; rfl
  | cons b r ih =>
      intro t h
      cases r with
      | nil => rfl
      | cons b2 r2 =>
          simp only [chainB, Bool.and_eq_true, beq_iff_eq] at h
          obtain ⟨h1, h2a, h2b⟩ := h
          simp only [consecStamped, Bool.and_eq_true, beq_iff_eq]
          refine ⟨by omega, ih (t + b.duration) ?_⟩
          simp only [chainB, Bool.and_eq_true, beq_iff_eq]
          exact ⟨h2a, h2b⟩

/-- The ordering and stamping invariant of a flush-free run: the delivered
buffers followed by the still-queued buffers are exactly the admitted
buffers in admission order, the admitted buffers form an unbroken
timestamp chain from 0, and the running buffer_timestamp sits at the end
of that chain. -/
def orderAccounted (s : TraceState) : Prop :=
  s.delivered ++ s.priv.queue = s.admitted ∧
  chainB 0 s.admitted = true ∧
  chainEnd 0 s.admitted = s.priv.buffer_timestamp

/-- Every non-flush queue operation preserves the ordering and stamping
invariant. -/
theorem orderAccounted_step (s : TraceState) (op : QueueOp)
    (hop : op ≠ QueueOp.flush) (h : orderAccounted s) :
    orderAccounted (traceStep s op) := by
  obtain ⟨h1, h2, h3⟩ := h
  cases op with
  | enqueue n sz =>
      rcases alloc_and_queue_cases s.priv n sz with hc | hc
      · simpa [traceStep, hc, orderAccounted] using ⟨h1, h2, h3⟩
      · refine ⟨?_, ?_, ?_⟩
        · simp [traceStep, hc]
          rw [← List.append_assoc, h1]
        · simp [traceStep, hc, chainB_append, h2, h3, mkDeliveryBuffer]
        · simp [traceStep, hc, chainEnd_append, h3, mkDeliveryBuffer]
  | dequeue =>
      by_cases hf : s.priv.flushing = true
      · have hts : traceStep s QueueOp.dequeue = { s with priv := s.priv } := by
          simp [traceStep, create_of_flushing s.priv hf]
        rw [hts]
        exact ⟨h1, h2, h3⟩
      · rw [Bool.not_eq_true] at hf
        cases hq : s.priv.queue with
        | nil =>
            by_cases he : s.priv.is_eos = true
            · have hts : traceStep s QueueOp.dequeue = { s with priv := s.priv } := by
                simp [traceStep, create_of_empty s.priv hf hq, he]
              rw [hts]
              exact ⟨h1, h2, h3⟩
            · rw [Bool.not_eq_true] at he
              have hts : traceStep s QueueOp.dequeue =
                  { s with priv := { s.priv with stutter := s.priv.stutter + 1 } } := by
                simp [traceStep, create_of_empty s.priv hf hq, he]
              rw [hts]
              exact ⟨h1, h2, h3⟩
        | cons b rest =>
            have hts : traceStep s QueueOp.dequeue =
                { admitted := s.admitted
                  delivered := s.delivered ++ [b]
                  priv := { s.priv with
                    queue := rest
                    queued_bytes := s.priv.queued_bytes - b.size } } := by
              simp [traceStep, create_of_queued s.priv b rest hf hq]
            rw [hts]
            refine ⟨?_, h2, h3⟩
            rw [hq] at h1
            simpa [List.append_assoc] using h1
  | flush => exact absurd rfl hop

/-- The ordering and stamping invariant holds along every flush-free run. -/
theorem orderAccounted_run (ops : List QueueOp) (s : TraceState)
    (hops : QueueOp.flush ∉ ops) (h : orderAccounted s) :
    orderAccounted (ops.foldl traceStep s) := by
  induction ops generalizing s with
  | nil => exact h
  | cons op rest ih =>
      rw [List.mem_cons, not_or] at hops
      exact ih (traceStep s op) hops.2
        (orderAccounted_step s op (fun he => hops.1 he.symm) h)

/-- C7: along every interleaving of producer enqueues and consumer dequeues
from the initial state (no flush), the buffers handed to the consumer
followed by the buffers still queued are exactly the admitted buffers in
admission order: FIFO delivery with no reordering, duplication or
skipping. -/
theorem C7_fifo (ops : List QueueOp) (hops : QueueOp.flush ∉ ops) :
    (runTrace ops).delivered ++ (runTrace ops).priv.queue
      = (runTrace ops).admitted :=
  (orderAccounted_run ops
    { admitted := [], delivered := [], priv := initialPriv }
    hops ⟨rfl, rfl, rfl⟩).1

/-- Witness for C7: an enqueue followed by a dequeue on the initial state. -/
theorem C7_fifo_witness :
    QueueOp.flush ∉ [QueueOp.enqueue 441 1764, QueueOp.dequeue] ∧
    (runTrace [QueueOp.enqueue 441 1764, QueueOp.dequeue]).delivered
        ++ (runTrace [QueueOp.enqueue 441 1764, QueueOp.dequeue]).priv.queue
      = (runTrace [QueueOp.enqueue 441 1764, QueueOp.dequeue]).admitted :=
  ⟨by decide, C7_fifo [QueueOp.enqueue 441 1764, QueueOp.dequeue] (by decide)⟩

/-- C3 (counterexample): a delivery of 441 frames at delivered sample rate
22050 (stereo) enqueues a buffer whose duration is 441 seconds scaled by
the fixed 44100 rate, namely 10000000 ns, not the 20000000 ns that
441 frames at the delivered rate 22050 would give: the code stamps the
duration with the hardcoded 44100, ignoring the delivered rate. -/
theorem C3_counterexample :
    (spotify_music_delivery_cb initialPriv 2 22050 441).snd.queue
      = [{ size := 1764, timestamp := 0, duration := 10000000 }] ∧
    gst_util_uint64_scale 441 GST_SECOND 22050 = 20000000 ∧
    (10000000 : Nat) ≠ 20000000 := by decide

/-- C3 (amended): for every music-delivery call with frame count n > 0,
channel count c and any delivered sample rate r, when the enqueue is
admitted (not flushing, not EOS, queued_bytes below max_bytes) and the
byte size fits in guint, the enqueued buffer has byte size n * c * 2,
duration n * GST_SECOND / 44100 computed with the fixed 44100 output
rate regardless of r, and timestamp equal to the running playback
position, which advances by that duration; the callback reports all n
frames consumed. -/
theorem C3_amended (p : SpotifySrcPrivate) (c r n : Nat)
    (hn : n ≠ 0) (hsz : n * 2 * c < GUINT_MOD)
    (hf : p.flushing = false) (he : p.is_eos = false)
    (hcap : p.queued_bytes < p.max_bytes) :
    spotify_music_delivery_cb p c r n =
      (n,
        { p with
          queue := p.queue ++
            [{ size := n * c * 2
               timestamp := p.buffer_timestamp
               duration := n * GST_SECOND / 44100 }]
          queued_bytes := p.queued_bytes + n * c * 2
          buffer_timestamp := p.buffer_timestamp + n * GST_SECOND / 44100 }) := by
  have hmod : n * 2 * c % GUINT_MOD = n * c * 2 := by
    rw [Nat.mod_eq_of_lt hsz]
    ring
  have halloc :
      gst_spotify_src_alloc_and_queue p n (n * 2 * c % GUINT_MOD) =
        (true,
          { p with
            queue := p.queue ++
              [{ size := n * c * 2
                 timestamp := p.buffer_timestamp
                 duration := n * GST_SECOND / 44100 }]
            queued_bytes := p.queued_bytes + n * c * 2
            buffer_timestamp := p.buffer_timestamp + n * GST_SECOND / 44100 }) := by
    unfold gst_spotify_src_alloc_and_queue
    rw [if_neg (by simp [hf]), if_neg (by simp [he]), if_neg (by omega), hmod]
    simp [mkDeliveryBuffer, gst_util_uint64_scale]
  unfold spotify_music_delivery_cb
  rw [if_neg hn]
  simp [halloc]

/-- Witness for C3 (amended): 441 stereo frames delivered at rate 22050 on
the freshly initialised element. -/
theorem C3_amended_witness :
    (441 : Nat) ≠ 0 ∧ 441 * 2 * 2 < GUINT_MOD ∧
    initialPriv.flushing = false ∧ initialPriv.is_eos = false ∧
    initialPriv.queued_bytes < initialPriv.max_bytes ∧
    spotify_music_delivery_cb initialPriv 2 22050 441 =
      (441,
        { initialPriv with
          queue := [{ size := 1764, timestamp := 0, duration := 10000000 }]
          queued_bytes := 1764
          buffer_timestamp := 10000000 }) := by
  refine ⟨by decide, by decide, by decide, by decide, by decide, ?_⟩
  have h := C3_amended initialPriv 2 22050 441 (by decide) (by decide)
    (by decide) (by decide) (by decide)
  simpa using h

/-- C4 (counterexample): with one 100-byte buffer queued and flushing set
by unlock, the dequeue does return the flushing sentinel, but afterwards
the queue still holds the buffer and queued_bytes is still 100, not 0:
the flushing path of gst_spotify_src_create does not drain the queue. -/
theorem C4_counterexample :
    (gst_spotify_src_create
      (gst_spotify_src_unlock
        (gst_spotify_src_alloc_and_queue initialPriv 441 100).snd)).fst
      = CreateResult.flowWrongState ∧
    (gst_spotify_src_create
      (gst_spotify_src_unlock
        (gst_spotify_src_alloc_and_queue initialPriv 441 100).snd)).snd.queue ≠ [] ∧
    (gst_spotify_src_create
      (gst_spotify_src_unlock
        (gst_spotify_src_alloc_and_queue initialPriv 441 100).snd)).snd.queued_bytes
      = 100 := by decide

/-- C4 (amended): while flushing, a dequeue call returns the flushing
sentinel and leaves the whole state, including the queue contents and
queued_bytes, unchanged; unlock sets the flushing flag; the queue is
emptied and queued_bytes reset to 0 only by the explicit
gst_spotify_src_flush_queued call made by stop and by a successful seek,
not by the dequeue itself. -/
theorem C4_amended (p : SpotifySrcPrivate) (h : p.flushing = true) :
    gst_spotify_src_create p = (CreateResult.flowWrongState, p) ∧
    (gst_spotify_src_unlock p).flushing = true ∧
    (gst_spotify_src_flush_queued p).queue = [] ∧
    (gst_spotify_src_flush_queued p).queued_bytes = 0 :=
  ⟨create_of_flushing p h, rfl, rfl, rfl⟩

/-- Witness for C4 (amended): the unlocked initial state with a queued
buffer. -/
theorem C4_amended_witness :
    (gst_spotify_src_unlock
      (gst_spotify_src_alloc_and_queue initialPriv 441 100).snd).flushing = true ∧
    gst_spotify_src_create
        (gst_spotify_src_unlock
          (gst_spotify_src_alloc_and_queue initialPriv 441 100).snd)
      = (CreateResult.flowWrongState,
          gst_spotify_src_unlock
            (gst_spotify_src_alloc_and_queue initialPriv 441 100).snd) :=
  ⟨by decide,
    (C4_amended
      (gst_spotify_src_unlock
        (gst_spotify_src_alloc_and_queue initialPriv 441 100).snd)
      (by decide)).1⟩

/-- C5 (counterexample): in a flushing state the end-of-track path refuses
the end-of-stream transition: is_eos stays false and no broadcast is
made, refuting the for-every-state claim. -/
theorem C5_counterexample :
    (gst_spotify_src_end_of_stream (gst_spotify_src_unlock initialPriv)).fst.is_eos
      = false ∧
    (gst_spotify_src_end_of_stream (gst_spotify_src_unlock initialPriv)).snd
      = false := by decide

/-- C5 (amended): the end-of-track callback forwards to
gst_spotify_src_end_of_stream; whenever the element is not flushing the
call sets is_eos and broadcasts on the queue condition variable, and
whenever it is flushing the call is refused: no flag change and no
broadcast. -/
theorem C5_amended (p : SpotifySrcPrivate) :
    spotify_end_of_track_cb p = gst_spotify_src_end_of_stream p ∧
    (p.flushing = false →
      gst_spotify_src_end_of_stream p = ({ p with is_eos := true }, true)) ∧
    (p.flushing = true →
      gst_spotify_src_end_of_stream p = (p, false)) := by
  refine ⟨rfl, ?_, ?_⟩
  · intro h
    unfold gst_spotify_src_end_of_stream
    rw [if_neg (by simp [h])]
  · intro h
    unfold gst_spotify_src_end_of_stream
    rw [if_pos (by simp [h])]

/-- Witness for C5 (amended): the freshly initialised element is not
flushing, so end-of-track sets is_eos and broadcasts. -/
theorem C5_amended_witness :
    initialPriv.flushing = false ∧
    gst_spotify_src_end_of_stream initialPriv
      = ({ initialPriv with is_eos := true }, true) :=
  ⟨by decide, (C5_amended initialPriv).2.1 (by decide)⟩

/-- C6: when end-of-stream has been signalled, the element is not flushing
and the queue is empty, a dequeue call returns the end-of-stream sentinel
immediately (no condvar wait, state unchanged, so every further call does
the same), producer enqueues keep being refused, and the flag is cleared
by a successful client seek on the normal seek path and by the stop half
of a fresh stop/start cycle (start itself preserves the cleared flag). -/
theorem C6_eos_sentinel (p : SpotifySrcPrivate) (n sz pos : Nat) (ok : Bool)
    (heos : p.is_eos = true) (hf : p.flushing = false) (hq : p.queue = []) :
    gst_spotify_src_create p = (CreateResult.flowUnexpected, p) ∧
    gst_spotify_src_alloc_and_queue p n sz = (false, p) ∧
    (gst_spotify_src_do_seek_normal p pos true).priv.is_eos = false ∧
    (gst_spotify_src_stop p).is_eos = false ∧
    ((gst_spotify_src_start (gst_spotify_src_stop p) ok).snd).is_eos = false := by
  refine ⟨?_, ?_, ?_, ?_, ?_⟩
  · rw [create_of_empty p hf hq, if_pos (by simp [heos])]
  · unfold gst_spotify_src_alloc_and_queue
    rw [if_neg (by simp [hf]), if_pos (by simp [heos])]
  · unfold gst_spotify_src_do_seek_normal
    rw [if_pos rfl]
  · rfl
  · unfold gst_spotify_src_start
    cases ok
    · rfl
    · rfl

/-- Witness for C6: the initial state with is_eos set. -/
theorem C6_eos_sentinel_witness :
    ({ initialPriv with is_eos := true } : SpotifySrcPrivate).is_eos = true ∧
    ({ initialPriv with is_eos := true } : SpotifySrcPrivate).flushing = false ∧
    ({ initialPriv with is_eos := true } : SpotifySrcPrivate).queue = [] ∧
    gst_spotify_src_create { initialPriv with is_eos := true }
      = (CreateResult.flowUnexpected, { initialPriv with is_eos := true }) :=
  ⟨by decide, by decide, by decide,
    (C6_eos_sentinel { initialPriv with is_eos := true } 1 4 0 true
      (by decide) (by decide) (by decide)).1⟩

/-- C8 (counterexample): start the element, deliver one 441-frame buffer
(the running position advances to 10000000 ns), then issue the first seek
with target position 0.  The seek reports success, yet immediately
afterwards the running playback position is still 10000000, not the seek
target 0: the first-seek-to-zero workaround returns TRUE without
resetting the position. -/
theorem C8_counterexample :
    (gst_spotify_src_do_seek
      (gst_spotify_src_alloc_and_queue
        (gst_spotify_src_start initialPriv true).snd 441 1764).snd 0 true).res
      = true ∧
    (gst_spotify_src_do_seek
      (gst_spotify_src_alloc_and_queue
        (gst_spotify_src_start initialPriv true).snd 441 1764).snd 0 true).priv.buffer_timestamp
      = 10000000 ∧
    (10000000 : Nat) ≠ 0 := by decide

/-- C8 (amended): along every flush-free run of enqueues and dequeues from
the initial state, each dequeued buffer is stamped at the previous
dequeued buffer timestamp plus that buffer duration (hence timestamps
are non-decreasing); every seek that actually issues the client seek
command and succeeds leaves the running playback position equal to the
seek target; the first-seek-to-zero workaround instead reports success
while leaving the running position unchanged. -/
theorem C8_amended :
    (∀ ops : List QueueOp, QueueOp.flush ∉ ops →
      consecStamped (runTrace ops).delivered = true) ∧
    (∀ (p : SpotifySrcPrivate) (pos : Nat),
      p.is_first_seek = false ∨ pos ≠ 0 →
      gst_spotify_src_do_seek p pos true =
        { res := true
          issued_client_seek := true
          priv := { gst_spotify_src_flush_queued p with
                      is_eos := false, buffer_timestamp := pos } }) ∧
    (∀ (p : SpotifySrcPrivate) (ok : Bool), p.is_first_seek = true →
      (gst_spotify_src_do_seek p 0 ok).res = true ∧
      (gst_spotify_src_do_seek p 0 ok).priv.buffer_timestamp
        = p.buffer_timestamp) := by
  refine ⟨?_, ?_, ?_⟩
  · intro ops hops
    have hinv := orderAccounted_run ops
      { admitted := [], delivered := [], priv := initialPriv }
      hops ⟨rfl, rfl, rfl⟩
    obtain ⟨h1, h2, _⟩ := hinv
    rw [← h1] at h2
    exact consecStamped_of_chainB _ 0
      (chainB_of_append_left 0 _ _ h2)
  · intro p pos h
    unfold gst_spotify_src_do_seek
    rw [if_neg (by rintro ⟨ha, hb⟩; rcases h with h | h
                   · rw [h] at ha; exact Bool.false_ne_true ha
                   · exact h hb)]
    unfold gst_spotify_src_do_seek_normal
    rw [if_pos rfl]
  · intro p ok h
    unfold gst_spotify_src_do_seek
    rw [if_pos ⟨h, rfl⟩]
    exact ⟨rfl, rfl⟩

/-- Witness for C8 (amended): a one-enqueue one-dequeue run, and a normal
successful seek from the initial state to 5000000 ns. -/
theorem C8_amended_witness :
    QueueOp.flush ∉ [QueueOp.enqueue 441 1764, QueueOp.dequeue] ∧
    consecStamped (runTrace [QueueOp.enqueue 441 1764, QueueOp.dequeue]).delivered
      = true ∧
    (initialPriv.is_first_seek = false ∨ (5000000 : Nat) ≠ 0) ∧
    gst_spotify_src_do_seek initialPriv 5000000 true =
      { res := true
        issued_client_seek := true
        priv := { gst_spotify_src_flush_queued initialPriv with
                    is_eos := false, buffer_timestamp := 5000000 } } :=
  ⟨by decide,
    C8_amended.1 [QueueOp.enqueue 441 1764, QueueOp.dequeue] (by decide),
    Or.inl (by decide),
    C8_amended.2.1 initialPriv 5000000 (Or.inl (by decide))⟩

/-- C9: a do_seek call that reaches the client seek command and sees it
fail returns failure and leaves the private state exactly unchanged: the
queue is not flushed, queued_bytes, the end-of-stream flag and the
running playback timestamp keep their values. -/
theorem C9_seek_failure_no_change (p : SpotifySrcPrivate) (pos : Nat)
    (h : p.is_first_seek = false ∨ pos ≠ 0) :
    gst_spotify_src_do_seek p pos false =
      { res := false, issued_client_seek := true, priv := p } := by
  unfold gst_spotify_src_do_seek
  rw [if_neg (by rintro ⟨ha, hb⟩; rcases h with h | h
                 · rw [h] at ha; exact Bool.false_ne_true ha
                 · exact h hb)]
  rfl

/-- Witness for C9: a failed seek to 5000000 ns from the initial state. -/
theorem C9_seek_failure_no_change_witness :
    (initialPriv.is_first_seek = false ∨ (5000000 : Nat) ≠ 0) ∧
    gst_spotify_src_do_seek initialPriv 5000000 false =
      { res := false, issued_client_seek := true, priv := initialPriv } :=
  ⟨Or.inl (by decide),
    C9_seek_failure_no_change initialPriv 5000000 (Or.inl (by decide))⟩

/-- C10: start sets the first-seek flag; while that flag is set, a do_seek
call with target position 0 returns success without issuing the client
seek command, without flushing the queue and without touching is_eos or
the playback timestamp: only the first-seek flag is cleared.  Once the
flag is false, every do_seek call (any position, including 0) takes the
normal seek path, which always issues the client seek command. -/
theorem C10_first_seek_shortcut (p : SpotifySrcPrivate) (pos : Nat) (ok : Bool) :
    ((gst_spotify_src_start p ok).snd).is_first_seek = true ∧
    (p.is_first_seek = true →
      gst_spotify_src_do_seek p 0 ok =
        { res := true
          issued_client_seek := false
          priv := { p with is_first_seek := false } }) ∧
    (p.is_first_seek = false →
      gst_spotify_src_do_seek p pos ok
        = gst_spotify_src_do_seek_normal p pos ok) ∧
    (gst_spotify_src_do_seek_normal p pos ok).issued_client_seek = true := by
  refine ⟨?_, ?_, ?_, ?_⟩
  · unfold gst_spotify_src_start
    cases ok
    · rfl
    · rfl
  · intro h
    unfold gst_spotify_src_do_seek
    rw [if_pos ⟨h, rfl⟩]
  · intro h
    unfold gst_spotify_src_do_seek
    rw [if_neg (by rintro ⟨ha, _⟩; rw [h] at ha; exact Bool.false_ne_true ha)]
  · unfold gst_spotify_src_do_seek_normal
    cases ok
    · rfl
    · rfl

/-- Witness for C10: the state right after a successful start, where the
first-seek flag is set, and its shortcut seek to 0. -/
theorem C10_first_seek_shortcut_witness :
    ((gst_spotify_src_start initialPriv true).snd).is_first_seek = true ∧
    gst_spotify_src_do_seek (gst_spotify_src_start initialPriv true).snd 0 true =
      { res := true
        issued_client_seek := false
        priv := { (gst_spotify_src_start initialPriv true).snd with
                    is_first_seek := false } } :=
  ⟨by decide,
    (C10_first_seek_shortcut (gst_spotify_src_start initialPriv true).snd 0 true).2.1
      (by decide)⟩
